import Mathlib

/-!
Shallow embedding of the LLM-analysis / warehouse task-submission subsystem of
`ddpui` (file `ddpui/api/warehouse_api.py`), together with proofs of the
specified properties.  Pure control flow of the Django/ninja handlers is
translated into Lean functions; external collaborators (sqlparse tokenisation,
the Celery enqueue, the Redis progress store, the ORM row store) are modelled
as explicit inputs / effect traces.
-/

namespace Ddpui

/-- The `ttype` of an sqlparse token, restricted to the distinctions the code
makes: `token.ttype is Keyword`, `token.ttype is Token.Literal.Number.Integer`,
and everything else (whitespace, identifiers, punctuation, ...). -/
inductive TokType
  | keyword
  | integerLit
  | other
deriving DecidableEq, Repr

/-- One sqlparse token: its `ttype` and its `value` string. -/
structure SqlToken where
  ttype : TokType
  value : String
deriving DecidableEq, Repr

/-- One sqlparse statement, as consumed by `post_warehouse_prompt`:
`get_type()` and the flat token list. -/
structure SqlStatement where
  stmtType : String
  tokens : List SqlToken
deriving DecidableEq, Repr

/-- An HTTP error as raised by `HttpError(status, detail)`. -/
structure HttpErr where
  status : Nat
  detail : String
deriving DecidableEq, Repr

/-- The Python `limit` variable: initially `float("inf")`, possibly replaced by
`int(token.value)`.  `none` stands for infinity. -/
abbrev PyLimit := Option Int

/-- Comparison `limit > LIMIT_ROWS_TO_SEND_TO_LLM` where `limit` may be `float("inf")`:
infinity exceeds every bound. -/
def limitExceeds (limit : PyLimit) (maxRows : Int) : Bool :=
  match limit with
  | none => true
  | some l => l > maxRows

/-- Python `str.upper()` on the ASCII SQL keywords compared by the scan. -/
def upperAscii (s : String) : String :=
  String.mk (s.data.map Char.toUpper)

/-- The integer value of a run of ASCII digits. -/
def digitsToInt (cs : List Char) : Int :=
  cs.foldl (fun a c => a * 10 + ((c.toNat : Int) - 48)) 0

/-- Python `int()` on the value of an sqlparse Integer token (a run of ASCII
digits, possibly preceded by a sign). -/
def pyInt (s : String) : Int :=
  match s.data with
  | '-' :: cs => - digitsToInt cs
  | '+' :: cs => digitsToInt cs
  | cs => digitsToInt cs

/-- The keyword test of the limit scan:
`token.ttype is Keyword and token.value.upper() == "LIMIT"`. -/
def isLimitKw (t : SqlToken) : Bool :=
  t.ttype == TokType.keyword && upperAscii t.value == "LIMIT"

/-- Inner token loop of the limit scan in `post_warehouse_prompt`
(warehouse_api.py lines 351-361), threading the `limit_found` flag and the
`limit` value; the `break` on the first integer token after the keyword ends
the loop for this statement. -/
def scanTokens : Bool → PyLimit → List SqlToken → Bool × PyLimit
  | limitFound, limit, [] => (limitFound, limit)
  | limitFound, limit, t :: rest =>
    let limitFound' := limitFound || isLimitKw t
    if limitFound' && t.ttype == TokType.integerLit then
      (limitFound', some (pyInt t.value))
    else
      scanTokens limitFound' limit rest

/-- Outer statement loop of the limit scan (`for stmt in stmts`), carrying the
flag and value across statements as the Python loop does. -/
def scanStmts : Bool → PyLimit → List SqlStatement → Bool × PyLimit
  | limitFound, limit, [] => (limitFound, limit)
  | limitFound, limit, s :: rest =>
    let res := scanTokens limitFound limit s.tokens
    scanStmts res.1 res.2 rest

/-- External inputs of one `post_warehouse_prompt` request: the sqlparse
result on `payload.sql`, the organisation's configured warehouse row (id) if
any, and the outcome of `summarize_warehouse_results.apply_async` (`some
task.id` on success, `none` when the enqueue raises). -/
structure AskEnv where
  stmts : List SqlStatement
  warehouse : Option Nat
  enqueueResult : Option String
deriving DecidableEq, Repr

/-- Observable side effects of `post_warehouse_prompt`: the Celery enqueue
with the (possibly rewritten) SQL, and the `SingleTaskProgress(task.id, 600)`
marker set in redis. -/
inductive AskEffect
  | enqueued (sql : String) (userPrompt : String)
  | setProgress (taskId : String) (ttlSeconds : Nat)
deriving DecidableEq, Repr

/-- Handler `post_warehouse_prompt` (warehouse_api.py lines 323-390): validates the
parsed statements, checks the warehouse, scans for a LIMIT clause, rejects or
rewrites, then enqueues.  Returns the response (`request_uuid`) or the raised
`HttpError`, paired with the list of performed side effects.
`maxRows` is the configured `LIMIT_ROWS_TO_SEND_TO_LLM`. -/
def post_warehouse_prompt (env : AskEnv) (sql userPrompt : String)
    (maxRows : Int) : Except HttpErr String × List AskEffect :=
  if env.stmts.length > 1 then
    (Except.error ⟨400, "Only one query is allowed"⟩, [])
  else
    match env.stmts with
    | [] => (Except.error ⟨400, "No query provided"⟩, [])
    | stmt0 :: _ =>
      if ¬ (stmt0.stmtType = "SELECT") then
        (Except.error ⟨400, "Only SELECT queries are allowed"⟩, [])
      else
        match env.warehouse with
        | none => (Except.error ⟨404, "Please set up your warehouse first"⟩, [])
        | some _ =>
          let scanned := scanStmts false none env.stmts
          let limitFound := scanned.1
          let limit := scanned.2
          if limitFound && limitExceeds limit maxRows then
            (Except.error
              ⟨400, "Please make sure the limit in query is less than "
                ++ toString maxRows⟩, [])
          else
            let finalSql :=
              if ¬ limitFound then sql ++ " LIMIT " ++ toString maxRows else sql
            match env.enqueueResult with
            | none =>
              (Except.error ⟨400, "failed to summarize warehouse results"⟩, [])
            | some taskId =>
              (Except.ok taskId,
                [AskEffect.enqueued finalSql userPrompt,
                 AskEffect.setProgress taskId (60 * 10)])

/-- Modelled from the spec: `GenerateResult.RESULT_STATUS_FETCHING` lives in
`ddpui/datainsights/generate_result.py`, which is not part of the sources;
the spec names the initial progress status `FETCHING`. -/
inductive ProgressStatus
  | FETCHING
  | ERROR
  | SUCCESS
deriving DecidableEq, Repr

/-- A progress entry as written by `TaskProgress.add` in `post_data_insights`:
the dict `{"message": ..., "status": ..., "results": [...]}`.  Result records
are opaque. -/
structure ProgressEntry where
  message : String
  status : ProgressStatus
  results : List String
deriving DecidableEq, Repr

/-- External inputs of one `post_data_insights` request: the organisation's
configured warehouse row (id) if any, and the fresh `str(uuid.uuid4())` drawn
at submission time (independent of the payload). -/
structure InsightsEnv where
  warehouse : Option Nat
  freshUuid : String
deriving DecidableEq, Repr

/-- Observable side effects of `post_data_insights`, in order: the
`TaskProgress(task_id, DATAINSIGHTS).add(...)` write and the
`poll_for_column_insights.delay(...)` enqueue. -/
inductive InsightsEffect
  | addProgress (taskId : String) (entry : ProgressEntry)
  | enqueueInsights (warehouseId : Nat) (payload : String) (taskId : String)
deriving DecidableEq, Repr

/-- Handler `post_data_insights` (warehouse_api.py lines 237-269): requires a
configured warehouse, generates a fresh task id, writes the initial FETCHING
progress entry, enqueues the insight computation, and returns the task id.
The payload is opaque (`payload.dict()` serialised). -/
def post_data_insights (env : InsightsEnv) (payload : String) :
    Except HttpErr String × List InsightsEffect :=
  match env.warehouse with
  | none => (Except.error ⟨404, "Please set up your warehouse first"⟩, [])
  | some wid =>
    (Except.ok env.freshUuid,
      [InsightsEffect.addProgress env.freshUuid
        ⟨"Fetching insights", ProgressStatus.FETCHING, []⟩,
       InsightsEffect.enqueueInsights wid payload env.freshUuid])

/-- Modelled from the spec: `LlmSessionStatus` (ddpui/models/llm.py) is not in
the sources; the spec gives `session_status ∈ {RUNNING, COMPLETE, ERROR}`. -/
inductive LlmSessionStatus
  | RUNNING
  | COMPLETE
  | ERROR
deriving DecidableEq, Repr

/-- Modelled from the spec: `LlmAssistantType` (ddpui/models/llm.py) is not in
the sources; the endpoints only use `LONG_TEXT_SUMMARIZATION`, other assistant
types are collapsed into one alternative. -/
inductive LlmAssistantType
  | LONG_TEXT_SUMMARIZATION
  | otherAssistant
deriving DecidableEq, Repr

/-- Modelled from the spec: the `LlmSession` row (ddpui/models/llm.py is not in
the sources); fields follow the spec's Session record
`{session_id, org, session_type, session_status, session_name (nullable),
request_meta, assistant_prompt, response, feedback (nullable), created_at,
updated_at}` plus the `request_uuid` and creator e-mail the list endpoint
reads. -/
structure LlmSessionRec where
  session_id : String
  org : Nat
  session_type : LlmAssistantType
  session_status : LlmSessionStatus
  session_name : Option String
  request_uuid : String
  request_meta : String
  assistant_prompt : String
  response : String
  feedback : Option String
  created_at : Nat
  updated_at : Nat
  orguser_email : String
deriving DecidableEq, Repr

/-- The ORM filter used by the save / feedback endpoints:
`LlmSession.objects.filter(session_id=..., org=org,
session_type=LONG_TEXT_SUMMARIZATION)`. -/
def sessionFilter (org : Nat) (sid : String) (s : LlmSessionRec) : Bool :=
  s.session_id == sid && s.org == org
    && s.session_type == LlmAssistantType.LONG_TEXT_SUMMARIZATION

/-- ORM `queryset.first()` over the stored rows. -/
def ormFirst (db : List LlmSessionRec) (p : LlmSessionRec → Bool) :
    Option LlmSessionRec :=
  db.find? p

/-- ORM `instance.save()` on a fetched row: the row is replaced in place by its
updated version. -/
def ormSave (db : List LlmSessionRec) (orig upd : LlmSessionRec) :
    List LlmSessionRec :=
  db.map fun s => if s = orig then upd else s

/-- Python truthiness of the optional `payload.old_session_id`
(`not payload.old_session_id` is true for `None` and for `""`). -/
def pyFalsy (o : Option String) : Bool :=
  match o with
  | none => true
  | some s => s.isEmpty

/-- Handler `post_save_warehouse_prompt_session` (warehouse_api.py lines 393-433):
looks up the target session, validates the overwrite arguments, deletes the
old session when `overwrite` is set (best-effort), rejects a RUNNING target,
then sets `session_name` and saves.  Returns the response or the raised
`HttpError`, paired with the resulting session store. -/
def post_save_warehouse_prompt_session (db : List LlmSessionRec) (org : Nat)
    (newSessionId sessionName : String) (overwrite : Bool)
    (oldSessionId : Option String) :
    Except HttpErr Nat × List LlmSessionRec :=
  match ormFirst db (sessionFilter org newSessionId) with
  | none => (Except.error ⟨404, "Session not found"⟩, db)
  | some newSession =>
    if overwrite && pyFalsy oldSessionId then
      (Except.error ⟨400, "session to overwrite is required"⟩, db)
    else
      let db1 :=
        if overwrite then
          match ormFirst db (sessionFilter org (oldSessionId.getD "")) with
          | some _ => db.eraseP (sessionFilter org (oldSessionId.getD ""))
          | none => db
        else db
      if newSession.session_status = LlmSessionStatus.RUNNING then
        (Except.error ⟨400, "Session is still in progress"⟩, db1)
      else
        (Except.ok 1,
          ormSave db1 newSession { newSession with session_name := some sessionName })

/-- Handler `post_feedback_llm_session` (warehouse_api.py lines 436-457): looks up the
session, overwrites its `feedback` field with the payload value, saves. -/
def post_feedback_llm_session (db : List LlmSessionRec) (org : Nat)
    (sessionId feedback : String) :
    Except HttpErr Nat × List LlmSessionRec :=
  match ormFirst db (sessionFilter org sessionId) with
  | none => (Except.error ⟨404, "Session not found"⟩, db)
  | some session =>
    (Except.ok 1, ormSave db session { session with feedback := some feedback })

/-- The ORM filter of the list endpoint: saved (`session_name__isnull=False`)
LONG_TEXT_SUMMARIZATION sessions of the organisation. -/
def savedFilter (org : Nat) (s : LlmSessionRec) : Bool :=
  s.org == org && s.session_name.isSome
    && s.session_type == LlmAssistantType.LONG_TEXT_SUMMARIZATION

/-- Insert a session into a list kept in decreasing `updated_at` order. -/
def insertByUpdatedDesc (s : LlmSessionRec) :
    List LlmSessionRec → List LlmSessionRec
  | [] => [s]
  | t :: ts =>
    if t.updated_at ≤ s.updated_at then s :: t :: ts
    else t :: insertByUpdatedDesc s ts

/-- Django `order_by("-updated_at")`: sort with the most recently updated first. -/
def orderByUpdatedDesc : List LlmSessionRec → List LlmSessionRec
  | [] => []
  | t :: ts => insertByUpdatedDesc t (orderByUpdatedDesc ts)

/-- Handler `get_warehouse_llm_analysis_sessions` (warehouse_api.py lines 460-511):
filters to saved sessions of the org, orders by `-updated_at`, slices
`[offset : offset + limit]`, and counts the full filtered set.  Returns
`(total_rows, rows)`. -/
def get_warehouse_llm_analysis_sessions (db : List LlmSessionRec) (org : Nat)
    (limit offset : Nat) : Nat × List LlmSessionRec :=
  let filtered := orderByUpdatedDesc (db.filter (savedFilter org))
  let rows := (filtered.drop offset).take limit
  let totalCount := (db.filter (savedFilter org)).length
  (totalCount, rows)

/-- Extract the user-visible HTTP status of a `post_warehouse_prompt`
outcome (`none` when the request succeeded). -/
def errStatus (r : Except HttpErr String × List AskEffect) : Option Nat :=
  match r.1 with
  | Except.error e => some e.status
  | Except.ok _ => none

/-- sqlparse token list of `"SELECT * FROM t"`: `SELECT` is DML (not
`Keyword`-typed), `FROM` is a keyword, no LIMIT keyword, no integer literal. -/
def tokensSelectFromT : List SqlToken :=
  [⟨TokType.other, "SELECT"⟩, ⟨TokType.other, " "⟩, ⟨TokType.other, "*"⟩,
   ⟨TokType.other, " "⟩, ⟨TokType.keyword, "FROM"⟩, ⟨TokType.other, " "⟩,
   ⟨TokType.other, "t"⟩]

/-- The parsed statement for `"SELECT * FROM t"`. -/
def stmtSelectFromT : SqlStatement :=
  ⟨"SELECT", tokensSelectFromT⟩

/-- The `LIMIT` keyword token. -/
def tokLimitKw : SqlToken :=
  ⟨TokType.keyword, "LIMIT"⟩

/-- A whitespace token. -/
def tokSpace : SqlToken :=
  ⟨TokType.other, " "⟩

/-- The integer literal token `10`. -/
def tokInt10 : SqlToken :=
  ⟨TokType.integerLit, "10"⟩

/-- A demo `LlmSession` row. -/
def demoSession (sid : String) (status : LlmSessionStatus)
    (name : Option String) (upd : Nat) : LlmSessionRec :=
  ⟨sid, 1, LlmAssistantType.LONG_TEXT_SUMMARIZATION, status, name,
   "req-" ++ sid, "meta", "prompt", "response", none, 0, upd,
   "user@example.com"⟩

/-- A session store with a RUNNING target session and a saved old session. -/
def dbRunningPair : List LlmSessionRec :=
  [demoSession "new1" LlmSessionStatus.RUNNING none 3,
   demoSession "oldX" LlmSessionStatus.COMPLETE (some "old analysis") 4]

/-- A session store with three saved and two unsaved sessions of org 1. -/
def demoDb : List LlmSessionRec :=
  [demoSession "s1" LlmSessionStatus.COMPLETE (some "a") 5,
   demoSession "s2" LlmSessionStatus.COMPLETE (some "b") 9,
   demoSession "s3" LlmSessionStatus.COMPLETE (some "c") 2,
   demoSession "s4" LlmSessionStatus.COMPLETE none 7,
   demoSession "s5" LlmSessionStatus.ERROR none 1]

/-! ## Lemmas about the limit scan -/

/-- A token recognised as the LIMIT keyword is `Keyword`-typed. -/
theorem isLimitKw_ttype {t : SqlToken} (h : isLimitKw t = true) :
    t.ttype = TokType.keyword := by
  unfold isLimitKw at h
  rw [Bool.and_eq_true, beq_iff_eq] at h
  exact h.1

/-- The scan stays in the not-found state over tokens that are not the LIMIT
keyword, keeping the current limit value. -/
theorem scanTokens_no_kw (lim : PyLimit) :
    ∀ ts : List SqlToken, (∀ t ∈ ts, isLimitKw t = false) →
      scanTokens false lim ts = (false, lim)
  | [], _ => rfl
  | t :: rest, h => by
    have ht : isLimitKw t = false := h t (List.mem_cons_self t rest)
    simp only [scanTokens, ht, Bool.or_false, Bool.false_and, if_neg Bool.false_ne_true]
    exact scanTokens_no_kw lim rest fun x hx => h x (List.mem_cons_of_mem t hx)

/-- A prefix without the LIMIT keyword is skipped by the scan. -/
theorem scanTokens_append_no_kw (lim : PyLimit) :
    ∀ pre rest : List SqlToken, (∀ t ∈ pre, isLimitKw t = false) →
      scanTokens false lim (pre ++ rest) = scanTokens false lim rest
  | [], _, _ => rfl
  | t :: pre, rest, h => by
    have ht : isLimitKw t = false := h t (List.mem_cons_self t pre)
    simp only [List.cons_append, scanTokens, ht, Bool.or_false, Bool.false_and,
      if_neg Bool.false_ne_true]
    exact scanTokens_append_no_kw lim pre rest fun x hx =>
      h x (List.mem_cons_of_mem t hx)

/-- Stepping the scan over the LIMIT keyword sets the found flag. -/
theorem scanTokens_kw_step (lim : PyLimit) (kw : SqlToken)
    (rest : List SqlToken) (hkw : isLimitKw kw = true) :
    scanTokens false lim (kw :: rest) = scanTokens true lim rest := by
  have hty := isLimitKw_ttype hkw
  simp [scanTokens, hkw, hty]

/-- After the keyword the scan skips non-integer tokens. -/
theorem scanTokens_found_skip (lim : PyLimit) :
    ∀ mid rest : List SqlToken, (∀ t ∈ mid, t.ttype ≠ TokType.integerLit) →
      scanTokens true lim (mid ++ rest) = scanTokens true lim rest
  | [], _, _ => rfl
  | t :: mid, rest, h => by
    have ht : t.ttype ≠ TokType.integerLit := h t (List.mem_cons_self t mid)
    simp only [List.cons_append, scanTokens, Bool.true_or, Bool.true_and]
    rw [if_neg (by simpa using ht)]
    exact scanTokens_found_skip lim mid rest fun x hx =>
      h x (List.mem_cons_of_mem t hx)

/-- With the keyword found and no integer token remaining, the scan keeps the
current (infinite) limit value. -/
theorem scanTokens_found_no_int (lim : PyLimit) :
    ∀ ts : List SqlToken, (∀ t ∈ ts, t.ttype ≠ TokType.integerLit) →
      scanTokens true lim ts = (true, lim)
  | [], _ => rfl
  | t :: rest, h => by
    have ht : t.ttype ≠ TokType.integerLit := h t (List.mem_cons_self t rest)
    simp only [scanTokens, Bool.true_or, Bool.true_and]
    rw [if_neg (by simpa using ht)]
    exact scanTokens_found_no_int lim rest fun x hx =>
      h x (List.mem_cons_of_mem t hx)

/-- The first integer token after the keyword becomes the limit value and
ends the scan of the statement. -/
theorem scanTokens_int_step (lim : PyLimit) (intTok : SqlToken)
    (rest : List SqlToken) (hint : intTok.ttype = TokType.integerLit) :
    scanTokens true lim (intTok :: rest)
      = (true, some (pyInt intTok.value)) := by
  simp [scanTokens, hint]

/-- The scan over a single statement is the token scan of its tokens. -/
theorem scanStmts_single (s : SqlStatement) :
    scanStmts false none [s] = scanTokens false none s.tokens := by
  simp [scanStmts]

/-! ## Lemmas about the `-updated_at` ordering -/

/-- Membership in an insertion. -/
theorem mem_insertByUpdatedDesc {a s : LlmSessionRec} :
    ∀ {l : List LlmSessionRec},
      a ∈ insertByUpdatedDesc s l ↔ a = s ∨ a ∈ l := by
  intro l
  induction l with
  | nil => simp [insertByUpdatedDesc]
  | cons t ts ih =>
    by_cases hc : t.updated_at ≤ s.updated_at
    · simp [insertByUpdatedDesc, hc]
    · simp only [insertByUpdatedDesc, if_neg hc, List.mem_cons, ih]
      tauto

/-- Insertion grows the length by one. -/
theorem length_insertByUpdatedDesc (s : LlmSessionRec) :
    ∀ l : List LlmSessionRec,
      (insertByUpdatedDesc s l).length = l.length + 1
  | [] => rfl
  | t :: ts => by
    by_cases hc : t.updated_at ≤ s.updated_at
    · simp [insertByUpdatedDesc, hc]
    · simp [insertByUpdatedDesc, hc, length_insertByUpdatedDesc s ts]

/-- Insertion preserves the decreasing-`updated_at` invariant. -/
theorem pairwise_insertByUpdatedDesc (s : LlmSessionRec) :
    ∀ l : List LlmSessionRec,
      l.Pairwise (fun a b => b.updated_at ≤ a.updated_at) →
      (insertByUpdatedDesc s l).Pairwise
        (fun a b => b.updated_at ≤ a.updated_at)
  | [], _ => by simp [insertByUpdatedDesc]
  | t :: ts, h => by
    rw [List.pairwise_cons] at h
    obtain ⟨ht, hts⟩ := h
    by_cases hc : t.updated_at ≤ s.updated_at
    · simp only [insertByUpdatedDesc, if_pos hc]
      rw [List.pairwise_cons]
      refine ⟨?_, ?_⟩
      · intro b hb
        rcases List.mem_cons.mp hb with rfl | hb2
        · exact hc
        · exact le_trans (ht b hb2) hc
      · rw [List.pairwise_cons]
        exact ⟨ht, hts⟩
    · simp only [insertByUpdatedDesc, if_neg hc]
      rw [List.pairwise_cons]
      refine ⟨?_, pairwise_insertByUpdatedDesc s ts hts⟩
      intro b hb
      rcases mem_insertByUpdatedDesc.mp hb with rfl | hb2
      · exact le_of_not_le hc
      · exact ht b hb2

/-- The sorted list is decreasing in `updated_at`. -/
theorem pairwise_orderByUpdatedDesc :
    ∀ l : List LlmSessionRec,
      (orderByUpdatedDesc l).Pairwise (fun a b => b.updated_at ≤ a.updated_at)
  | [] => List.Pairwise.nil
  | t :: ts =>
    pairwise_insertByUpdatedDesc t (orderByUpdatedDesc ts)
      (pairwise_orderByUpdatedDesc ts)

/-- Sorting preserves membership. -/
theorem mem_orderByUpdatedDesc {a : LlmSessionRec} :
    ∀ {l : List LlmSessionRec}, a ∈ orderByUpdatedDesc l ↔ a ∈ l := by
  intro l
  induction l with
  | nil => simp [orderByUpdatedDesc]
  | cons t ts ih =>
    simp only [orderByUpdatedDesc, mem_insertByUpdatedDesc, ih, List.mem_cons]

/-- Sorting preserves the length. -/
theorem length_orderByUpdatedDesc :
    ∀ l : List LlmSessionRec, (orderByUpdatedDesc l).length = l.length
  | [] => rfl
  | t :: ts => by
    simp [orderByUpdatedDesc, length_insertByUpdatedDesc,
      length_orderByUpdatedDesc ts]

/-! ## Claim theorems: the `/ask/` submission gateway -/

/-- C3: whenever the submitted SQL parses into two or more statements,
`post_warehouse_prompt` fails with the InvalidQuery error
`400 "Only one query is allowed"`, issues no task identifier (the result is an
error, not a `request_uuid`), enqueues nothing and creates no progress marker
(the effect trace is empty), for every warehouse/enqueue environment. -/
theorem ask_multi_statement_atomic (env : AskEnv) (sql userPrompt : String)
    (maxRows : Int) (h : env.stmts.length > 1) :
    post_warehouse_prompt env sql userPrompt maxRows
      = (Except.error ⟨400, "Only one query is allowed"⟩, []) := by
  unfold post_warehouse_prompt
  rw [if_pos h]

/-- Witness for C3: a concrete submission parsing into two statements. -/
theorem ask_multi_statement_atomic_witness :
    (AskEnv.mk [stmtSelectFromT, stmtSelectFromT] (some 1) (some "tid")).stmts.length > 1
    ∧ post_warehouse_prompt
        (AskEnv.mk [stmtSelectFromT, stmtSelectFromT] (some 1) (some "tid"))
        "SELECT * FROM t; SELECT * FROM t" "what is this" 500
      = (Except.error ⟨400, "Only one query is allowed"⟩, []) :=
  ⟨by decide,
   ask_multi_statement_atomic
     (AskEnv.mk [stmtSelectFromT, stmtSelectFromT] (some 1) (some "tid"))
     "SELECT * FROM t; SELECT * FROM t" "what is this" 500 (by decide)⟩

/-- C4: for an accepted single-statement SELECT submission whose token list
contains no LIMIT keyword, the dispatched query is the submitted SQL with
`" LIMIT <configured maximum>"` appended. -/
theorem ask_no_limit_injects_max (wid : Nat) (tid sql userPrompt : String)
    (maxRows : Int) (st : SqlStatement)
    (hsel : st.stmtType = "SELECT")
    (hnol : ∀ t ∈ st.tokens, isLimitKw t = false) :
    post_warehouse_prompt ⟨[st], some wid, some tid⟩ sql userPrompt maxRows
      = (Except.ok tid,
         [AskEffect.enqueued (sql ++ " LIMIT " ++ toString maxRows) userPrompt,
          AskEffect.setProgress tid (60 * 10)]) := by
  have hscan : scanStmts false none [st] = (false, none) := by
    rw [scanStmts_single]
    exact scanTokens_no_kw none st.tokens hnol
  simp [post_warehouse_prompt, hsel, hscan]

/-- Witness for C4: `"SELECT * FROM t"` with configured maximum 1000 is
dispatched as `"SELECT * FROM t LIMIT 1000"`. -/
theorem ask_no_limit_injects_max_witness :
    post_warehouse_prompt ⟨[stmtSelectFromT], some 1, some "tid"⟩
        "SELECT * FROM t" "what is this" 1000
      = (Except.ok "tid",
         [AskEffect.enqueued "SELECT * FROM t LIMIT 1000" "what is this",
          AskEffect.setProgress "tid" (60 * 10)]) := by
  have h := ask_no_limit_injects_max 1 "tid" "SELECT * FROM t" "what is this"
    1000 stmtSelectFromT (by decide) (by decide)
  rw [h]
  rfl

/-- C5: for a single-statement SELECT whose LIMIT clause carries the integer
value N: if N exceeds the configured maximum the submission fails with
InvalidQuery and nothing is enqueued; if N is at most the maximum, the check
passes and the SQL is dispatched unmodified. -/
theorem ask_limit_value_rule (wid : Nat) (tid sql userPrompt : String)
    (maxRows N : Int) (pre mid post : List SqlToken) (kw intTok : SqlToken)
    (hpre : ∀ t ∈ pre, isLimitKw t = false)
    (hkw : isLimitKw kw = true)
    (hmid : ∀ t ∈ mid, t.ttype ≠ TokType.integerLit)
    (hint : intTok.ttype = TokType.integerLit)
    (hN : pyInt intTok.value = N)
    (enq : Option String) :
    (maxRows < N →
      post_warehouse_prompt
        ⟨[⟨"SELECT", pre ++ kw :: (mid ++ intTok :: post)⟩], some wid, enq⟩
        sql userPrompt maxRows
        = (Except.error
            ⟨400, "Please make sure the limit in query is less than "
              ++ toString maxRows⟩, []))
    ∧ (N ≤ maxRows →
      post_warehouse_prompt
        ⟨[⟨"SELECT", pre ++ kw :: (mid ++ intTok :: post)⟩], some wid, some tid⟩
        sql userPrompt maxRows
        = (Except.ok tid,
           [AskEffect.enqueued sql userPrompt,
            AskEffect.setProgress tid (60 * 10)])) := by
  have hscan :
      scanStmts false none
        [⟨"SELECT", pre ++ kw :: (mid ++ intTok :: post)⟩] = (true, some N) := by
    rw [scanStmts_single]
    show scanTokens false none (pre ++ kw :: (mid ++ intTok :: post)) = _
    rw [scanTokens_append_no_kw none pre _ hpre,
        scanTokens_kw_step none kw _ hkw,
        scanTokens_found_skip none mid _ hmid,
        scanTokens_int_step none intTok post hint, hN]
  constructor
  · intro hgt
    have hex : limitExceeds (some N) maxRows = true := by
      simp [limitExceeds]
      exact hgt
    simp [post_warehouse_prompt, hscan, hex]
  · intro hle
    have hex : limitExceeds (some N) maxRows = false := by
      simp [limitExceeds]
      omega
    simp [post_warehouse_prompt, hscan, hex]

/-- Witness for C5: `"SELECT * FROM t LIMIT 10"` is rejected when the maximum
is 5 and dispatched unmodified when the maximum is 500. -/
theorem ask_limit_value_rule_witness :
    post_warehouse_prompt
        ⟨[⟨"SELECT", tokensSelectFromT ++ tokLimitKw :: ([tokSpace] ++ tokInt10 :: [])⟩],
          some 1, some "tid"⟩
        "SELECT * FROM t LIMIT 10" "what is this" 5
      = (Except.error
          ⟨400, "Please make sure the limit in query is less than 5"⟩, [])
    ∧ post_warehouse_prompt
        ⟨[⟨"SELECT", tokensSelectFromT ++ tokLimitKw :: ([tokSpace] ++ tokInt10 :: [])⟩],
          some 1, some "tid"⟩
        "SELECT * FROM t LIMIT 10" "what is this" 500
      = (Except.ok "tid",
         [AskEffect.enqueued "SELECT * FROM t LIMIT 10" "what is this",
          AskEffect.setProgress "tid" (60 * 10)]) := by
  constructor
  · have h := ask_limit_value_rule 1 "tid" "SELECT * FROM t LIMIT 10"
      "what is this" 5 10 tokensSelectFromT [tokSpace] [] tokLimitKw tokInt10
      (by decide) (by decide) (by decide) (by decide) (by decide) (some "tid")
    exact (h.1 (by decide)).trans (by rfl)
  · have h := ask_limit_value_rule 1 "tid" "SELECT * FROM t LIMIT 10"
      "what is this" 500 10 tokensSelectFromT [tokSpace] [] tokLimitKw tokInt10
      (by decide) (by decide) (by decide) (by decide) (by decide) (some "tid")
    exact h.2 (by decide)

/-- C10: a single-statement SELECT whose LIMIT keyword is not followed by any
integer literal token keeps the Python limit at `float("inf")`, which exceeds
every configured maximum, so the submission is rejected with InvalidQuery and
nothing is enqueued. -/
theorem ask_limit_no_integer_rejected (wid : Nat) (sql userPrompt : String)
    (maxRows : Int) (pre post : List SqlToken) (kw : SqlToken)
    (hpre : ∀ t ∈ pre, isLimitKw t = false)
    (hkw : isLimitKw kw = true)
    (hpost : ∀ t ∈ post, t.ttype ≠ TokType.integerLit)
    (enq : Option String) :
    post_warehouse_prompt ⟨[⟨"SELECT", pre ++ kw :: post⟩], some wid, enq⟩
        sql userPrompt maxRows
      = (Except.error
          ⟨400, "Please make sure the limit in query is less than "
            ++ toString maxRows⟩, []) := by
  have hscan :
      scanStmts false none [⟨"SELECT", pre ++ kw :: post⟩] = (true, none) := by
    rw [scanStmts_single]
    show scanTokens false none (pre ++ kw :: post) = _
    rw [scanTokens_append_no_kw none pre _ hpre,
        scanTokens_kw_step none kw _ hkw]
    exact scanTokens_found_no_int none post hpost
  simp [post_warehouse_prompt, hscan, limitExceeds]

/-- Witness for C10: `"SELECT * FROM t LIMIT all"` (no integer after the
keyword) is rejected. -/
theorem ask_limit_no_integer_rejected_witness :
    post_warehouse_prompt
        ⟨[⟨"SELECT", tokensSelectFromT ++ tokLimitKw :: [tokSpace, ⟨TokType.other, "all"⟩]⟩],
          some 1, some "tid"⟩
        "SELECT * FROM t LIMIT all" "what is this" 500
      = (Except.error
          ⟨400, "Please make sure the limit in query is less than 500"⟩, []) := by
  have h := ask_limit_no_integer_rejected 1 "SELECT * FROM t LIMIT all"
    "what is this" 500 tokensSelectFromT [tokSpace, ⟨TokType.other, "all"⟩]
    tokLimitKw (by decide) (by decide) (by decide) (some "tid")
  exact h.trans (by rfl)

/-- The InvalidQuery limit message differs from the NotConfigured message for
every appended bound, already by length. -/
theorem limit_message_ne_warehouse_message (x : String) :
    ("Please make sure the limit in query is less than " ++ x : String)
      ≠ "Please set up your warehouse first" := by
  intro heq
  have hlen := congrArg String.length heq
  rw [String.length_append] at hlen
  have h1 : ("Please make sure the limit in query is less than " : String).length
      = 49 := rfl
  have h2 : ("Please set up your warehouse first" : String).length = 34 := rfl
  rw [h1, h2] at hlen
  omega

/-- C2 counterexample: an InvalidQuery failure (two parsed statements) and an
Internal failure (the enqueue raises) both surface with the same user-visible
HTTP status 400, so the three failure kinds are not mapped to pairwise
distinct statuses. -/
theorem ask_status_collision :
    errStatus (post_warehouse_prompt
        ⟨[stmtSelectFromT, stmtSelectFromT], some 1, some "tid"⟩
        "SELECT * FROM t; SELECT * FROM t" "what is this" 500) = some 400
    ∧ errStatus (post_warehouse_prompt
        ⟨[stmtSelectFromT], some 1, none⟩
        "SELECT * FROM t" "what is this" 500) = some 400 := by
  constructor <;> rfl

/-- C2 (amended): every error of the LLM-summarization submit operation is
either the NotConfigured error, with its own status 404, or one of the
InvalidQuery / Internal errors, which all share status 400 and are
distinguished from NotConfigured (and from each other) only by their
message. -/
theorem ask_error_status_mapping (env : AskEnv) (sql userPrompt : String)
    (maxRows : Int) (e : HttpErr)
    (h : (post_warehouse_prompt env sql userPrompt maxRows).1 = Except.error e) :
    (e.status = 404 ∧ e.detail = "Please set up your warehouse first")
    ∨ (e.status = 400 ∧ e.detail ≠ "Please set up your warehouse first") := by
  simp only [post_warehouse_prompt] at h
  repeat' split at h
  all_goals first
    | exact Except.noConfusion h
    | (injection h with h2; subst h2; left; exact ⟨rfl, rfl⟩)
    | (injection h with h2; subst h2; right; exact ⟨rfl, by decide⟩)
    | (injection h with h2; subst h2; right;
        exact ⟨rfl, limit_message_ne_warehouse_message (toString maxRows)⟩)

/-- Witness for C2 (amended): the NotConfigured error of a concrete
submission with no warehouse falls into the 404 alternative. -/
theorem ask_error_status_mapping_witness :
    ((HttpErr.mk 404 "Please set up your warehouse first").status = 404
      ∧ (HttpErr.mk 404 "Please set up your warehouse first").detail
          = "Please set up your warehouse first")
    ∨ ((HttpErr.mk 404 "Please set up your warehouse first").status = 400
      ∧ (HttpErr.mk 404 "Please set up your warehouse first").detail
          ≠ "Please set up your warehouse first") :=
  ask_error_status_mapping ⟨[stmtSelectFromT], none, some "tid"⟩
    "SELECT * FROM t" "what is this" 500
    ⟨404, "Please set up your warehouse first"⟩ rfl

/-! ## Claim theorems: the insights submission -/

/-- C6: with a warehouse configured, `post_data_insights` returns the fresh
task identifier drawn at submission time (the same identifier for every
payload, hence not derived from user input), and its effect trace writes the
initial progress entry — status FETCHING, empty results — under that
identifier before the enqueue of the asynchronous work; the gateway performs
no other step and never waits on the work. -/
theorem insights_submission_protocol (wid : Nat) (uuid payload : String) :
    post_data_insights ⟨some wid, uuid⟩ payload
      = (Except.ok uuid,
         [InsightsEffect.addProgress uuid
            ⟨"Fetching insights", ProgressStatus.FETCHING, []⟩,
          InsightsEffect.enqueueInsights wid payload uuid]) := rfl

/-! ## Claim theorems: the session lifecycle -/

/-- C1 counterexample: saving over a RUNNING target with `overwrite=True` and
an existing old session `oldX` raises the Conflict error, but the session
store is changed: `oldX` has been deleted before the RUNNING check. -/
theorem save_overwrite_running_counterexample :
    (post_save_warehouse_prompt_session dbRunningPair 1 "new1" "name" true
        (some "oldX")).1
      = Except.error ⟨400, "Session is still in progress"⟩
    ∧ (post_save_warehouse_prompt_session dbRunningPair 1 "new1" "name" true
        (some "oldX")).2
      = [demoSession "new1" LlmSessionStatus.RUNNING none 3]
    ∧ (post_save_warehouse_prompt_session dbRunningPair 1 "new1" "name" true
        (some "oldX")).2
      ≠ dbRunningPair := by
  refine ⟨rfl, rfl, ?_⟩
  decide

/-- C1 (amended): a save with `overwrite=True` on an existing RUNNING target
session fails with the Conflict error `400 "Session is still in progress"`,
but only after the old session named by `old_session_id` has been deleted:
the resulting store is the original one with the first session matching the
old id erased, one row shorter. -/
theorem save_overwrite_running_conflict_deletes_old (db : List LlmSessionRec)
    (org : Nat) (newId name oldId : String) (ns old : LlmSessionRec)
    (hnew : ormFirst db (sessionFilter org newId) = some ns)
    (hrun : ns.session_status = LlmSessionStatus.RUNNING)
    (hne : oldId.isEmpty = false)
    (hold : ormFirst db (sessionFilter org oldId) = some old) :
    post_save_warehouse_prompt_session db org newId name true (some oldId)
      = (Except.error ⟨400, "Session is still in progress"⟩,
         db.eraseP (sessionFilter org oldId))
    ∧ (db.eraseP (sessionFilter org oldId)).length + 1 = db.length := by
  constructor
  · simp [post_save_warehouse_prompt_session, hnew, pyFalsy, hne, hold, hrun]
  · have hmem : old ∈ db := List.mem_of_find?_eq_some hold
    have hp : sessionFilter org oldId old = true := List.find?_some hold
    rw [List.length_eraseP_of_mem hmem hp]
    have : 0 < db.length := List.length_pos.mpr (List.ne_nil_of_mem hmem)
    omega

/-- Witness for C1 (amended): the concrete RUNNING/old pair store. -/
theorem save_overwrite_running_conflict_deletes_old_witness :
    post_save_warehouse_prompt_session dbRunningPair 1 "new1" "name" true
        (some "oldX")
      = (Except.error ⟨400, "Session is still in progress"⟩,
         dbRunningPair.eraseP (sessionFilter 1 "oldX"))
    ∧ (dbRunningPair.eraseP (sessionFilter 1 "oldX")).length + 1
        = dbRunningPair.length :=
  save_overwrite_running_conflict_deletes_old dbRunningPair 1 "new1" "name"
    "oldX" (demoSession "new1" LlmSessionStatus.RUNNING none 3)
    (demoSession "oldX" LlmSessionStatus.COMPLETE (some "old analysis") 4)
    (by decide) rfl (by decide) (by decide)

/-- C8: for a save request on an existing session, (a) `overwrite` without an
`old_session_id` fails with the InvalidArgument error
`400 "session to overwrite is required"` and the store is returned unchanged;
(b) `overwrite` with an `old_session_id` matching no stored session is not an
error: the save proceeds and succeeds (for a non-RUNNING target), setting the
target's `session_name`. -/
theorem save_overwrite_argument_rules (db : List LlmSessionRec) (org : Nat)
    (newId name oldId : String) (ns : LlmSessionRec)
    (hnew : ormFirst db (sessionFilter org newId) = some ns) :
    (post_save_warehouse_prompt_session db org newId name true none
        = (Except.error ⟨400, "session to overwrite is required"⟩, db))
    ∧ (ns.session_status ≠ LlmSessionStatus.RUNNING →
       oldId.isEmpty = false →
       ormFirst db (sessionFilter org oldId) = none →
       post_save_warehouse_prompt_session db org newId name true (some oldId)
         = (Except.ok 1,
            ormSave db ns { ns with session_name := some name })) := by
  constructor
  · simp [post_save_warehouse_prompt_session, hnew, pyFalsy]
  · intro hns hne hold
    simp [post_save_warehouse_prompt_session, hnew, pyFalsy, hne, hold, hns]

/-- Witness for C8: a concrete store with one COMPLETE target session, a
missing `old_session_id`, and an absent old session `ghost`. -/
theorem save_overwrite_argument_rules_witness :
    (post_save_warehouse_prompt_session demoDb 1 "s1" "nm" true none
        = (Except.error ⟨400, "session to overwrite is required"⟩, demoDb))
    ∧ post_save_warehouse_prompt_session demoDb 1 "s1" "nm" true (some "ghost")
        = (Except.ok 1,
           ormSave demoDb (demoSession "s1" LlmSessionStatus.COMPLETE (some "a") 5)
             { demoSession "s1" LlmSessionStatus.COMPLETE (some "a") 5 with
                 session_name := some "nm" }) :=
  ⟨(save_overwrite_argument_rules demoDb 1 "s1" "nm" "ghost"
      (demoSession "s1" LlmSessionStatus.COMPLETE (some "a") 5) (by decide)).1,
   (save_overwrite_argument_rules demoDb 1 "s1" "nm" "ghost"
      (demoSession "s1" LlmSessionStatus.COMPLETE (some "a") 5) (by decide)).2
     (by decide) (by decide) (by decide)⟩

/-- C9: `attach_feedback` fails with the NotFound error
`404 "Session not found"` and returns the store unchanged when no session of
the organisation matches the identifier; when one does, it reports success and
unconditionally replaces that session's `feedback` field with the given value,
whatever was stored before. -/
theorem feedback_rules (db : List LlmSessionRec) (org : Nat)
    (sid fb : String) :
    (ormFirst db (sessionFilter org sid) = none →
      post_feedback_llm_session db org sid fb
        = (Except.error ⟨404, "Session not found"⟩, db))
    ∧ (∀ s : LlmSessionRec, ormFirst db (sessionFilter org sid) = some s →
      post_feedback_llm_session db org sid fb
        = (Except.ok 1, ormSave db s { s with feedback := some fb })) := by
  constructor
  · intro h
    simp [post_feedback_llm_session, h]
  · intro s h
    simp [post_feedback_llm_session, h]

/-- Witness for C9: feedback on a missing session id and on a present one. -/
theorem feedback_rules_witness :
    (post_feedback_llm_session demoDb 1 "nope" "great"
        = (Except.error ⟨404, "Session not found"⟩, demoDb))
    ∧ post_feedback_llm_session demoDb 1 "s1" "great"
        = (Except.ok 1,
           ormSave demoDb (demoSession "s1" LlmSessionStatus.COMPLETE (some "a") 5)
             { demoSession "s1" LlmSessionStatus.COMPLETE (some "a") 5 with
                 feedback := some "great" }) :=
  ⟨(feedback_rules demoDb 1 "nope" "great").1 (by decide),
   (feedback_rules demoDb 1 "s1" "great").2
     (demoSession "s1" LlmSessionStatus.COMPLETE (some "a") 5) (by decide)⟩

/-- C7: `get_warehouse_llm_analysis_sessions` reports as `total_rows` the
number of all saved sessions of the organisation independently of the window,
returns only rows passing the saved-session filter (non-null `session_name`),
in non-increasing `updated_at` order, and the window holds
`min limit (total - offset)` rows. -/
theorem list_saved_sessions_spec (db : List LlmSessionRec)
    (org limit offset : Nat) :
    (get_warehouse_llm_analysis_sessions db org limit offset).1
        = (db.filter (savedFilter org)).length
    ∧ (∀ s ∈ (get_warehouse_llm_analysis_sessions db org limit offset).2,
        savedFilter org s = true)
    ∧ ((get_warehouse_llm_analysis_sessions db org limit offset).2.Pairwise
        fun a b => b.updated_at ≤ a.updated_at)
    ∧ (get_warehouse_llm_analysis_sessions db org limit offset).2.length
        = min limit ((db.filter (savedFilter org)).length - offset) := by
  refine ⟨rfl, ?_, ?_, ?_⟩
  · intro s hs
    have h1 : s ∈ (orderByUpdatedDesc (db.filter (savedFilter org))).drop offset :=
      List.mem_of_mem_take hs
    have h2 : s ∈ orderByUpdatedDesc (db.filter (savedFilter org)) :=
      List.mem_of_mem_drop h1
    have h3 : s ∈ db.filter (savedFilter org) := mem_orderByUpdatedDesc.mp h2
    exact (List.mem_filter.mp h3).2
  · have hp := pairwise_orderByUpdatedDesc (db.filter (savedFilter org))
    exact List.Pairwise.sublist
      ((List.take_sublist _ _).trans (List.drop_sublist _ _)) hp
  · show (((orderByUpdatedDesc (db.filter (savedFilter org))).drop offset).take
        limit).length = _
    rw [List.length_take, List.length_drop, length_orderByUpdatedDesc]

/-- Witness for C7: with three saved and two unsaved sessions,
`limit=10, offset=0` yields 3 rows and `total_rows = 3`. -/
theorem list_saved_sessions_spec_witness :
    (get_warehouse_llm_analysis_sessions demoDb 1 10 0).1 = 3
    ∧ (get_warehouse_llm_analysis_sessions demoDb 1 10 0).2.length = 3 := by
  have h := list_saved_sessions_spec demoDb 1 10 0
  have hcount : (demoDb.filter (savedFilter 1)).length = 3 := by decide
  refine ⟨h.1.trans hcount, ?_⟩
  rw [h.2.2.2, hcount]
  decide

end Ddpui
